import Mathlib

/-
Verification of the vulkano buffer-tracking traits (src/vulkano/src/buffer/traits.rs)
against their natural-language specification.

Shallow embedding conventions:
- `usize` values (offsets, sizes) are modelled as `Nat`; the raw Vulkan handle
  returned by `internal_object()` is modelled as a `Nat` identifier.
- A value implementing the `Buffer` trait is modelled by its observable behavior:
  the `BufferInner` returned by `inner()` and the `usize` returned by `size()`
  (which an implementer may override; the trait's default body is modelled
  separately as `Buffer.defaultSize`).
- `debug_assert!` aborts the process in debug builds and is a no-op otherwise;
  `conflicts_buffer_checked` models this with an explicit build flag and an
  `Except` result, while `conflicts_buffer` models the value the expression
  itself computes (the release-build semantics).
- `unimplemented!()` is modelled as an `Except.error` result.
-/

namespace Vulkano

/-- The raw buffer object (`buffer::sys::UnsafeBuffer`): its Vulkan handle as
returned by `internal_object()`, and its total byte size as returned by `size()`. -/
structure UnsafeBuffer where
  internal_object : Nat
  size : Nat
deriving Repr, DecidableEq

/-- Inner information about a buffer (traits.rs lines 78-86): the underlying
buffer object and the byte offset from its start to the start of the described
buffer. -/
structure BufferInner where
  buffer : UnsafeBuffer
  offset : Nat
deriving Repr, DecidableEq

/-- Observable behavior of a value implementing the `Buffer` trait: the result
of `inner()` and the result of `size()` (implementers may override `size`). -/
structure BufferVal where
  inner : BufferInner
  size : Nat
deriving Repr, DecidableEq

/-- The `Buffer` trait's default `size()` body (traits.rs lines 32-35):
`self.inner().buffer.size()`. -/
def Buffer.defaultSize (inner : BufferInner) : Nat :=
  inner.buffer.size

/-- The `Buffer` trait's `len()` body (traits.rs lines 40-43):
`self.size() / <Self::Content as Content>::indiv_size()`. -/
def Buffer.len (size indivSize : Nat) : Nat :=
  size / indivSize

/-- Default body of `TrackedBuffer::conflicts_buffer` (traits.rs lines 123-151),
modelling the value the expression computes (the `debug_assert!` on line 129 is
modelled separately by `conflicts_buffer_checked`). -/
def conflicts_buffer (self : BufferVal) (self_offset self_size : Nat) (self_write : Bool)
    (other : BufferVal) (other_offset other_size : Nat) (other_write : Bool) : Bool :=
  if self.inner.buffer.internal_object ≠ other.inner.buffer.internal_object then
    false
  else if !self_write && !other_write then
    false
  else
    let self_offset := self_offset + self.inner.offset
    let other_offset := other_offset + other.inner.offset
    if self_offset < other_offset ∧ self_offset + self_size ≤ other_offset then
      false
    else if other_offset < self_offset ∧ other_offset + other_size ≤ self_offset then
      false
    else
      true

/-- The default `conflicts_buffer` body together with its
`debug_assert!(self_size <= self.size())` (traits.rs line 129): in a debug build
a violating call aborts (modelled as `Except.error`); otherwise the predicate's
value is returned. -/
def conflicts_buffer_checked (debugBuild : Bool) (self : BufferVal)
    (self_offset self_size : Nat) (self_write : Bool)
    (other : BufferVal) (other_offset other_size : Nat) (other_write : Bool) :
    Except String Bool :=
  if debugBuild ∧ self.size < self_size then
    .error "assertion failed: self_size <= self.size()"
  else
    .ok (conflicts_buffer self self_offset self_size self_write
          other other_offset other_size other_write)

/-- Default body of `TrackedBuffer::conflict_key` (traits.rs lines 154-157):
`unimplemented!()`, a runtime panic, modelled as an error result. -/
def conflict_key_default (self_offset self_size : Nat) (self_write : Bool) :
    Except String Nat :=
  .error "not implemented"

/-- The overlap criterion exactly as the specification words it, for comparison
with the code: ranges `[s1, s1+n1)` and `[s2, s2+n2)` overlap iff
not (`s1 + n1 <= s2` or `s2 + n2 <= s1`). -/
def spec_overlap (s1 n1 s2 n2 : Nat) : Bool :=
  !(decide (s1 + n1 ≤ s2) || decide (s2 + n2 ≤ s1))

/-- Request that a memory barrier is created as part of the pipeline barrier
(traits.rs lines 209-218); the access-mask type `Acc` (`AccessFlagBits`) is an
external collaborator kept abstract. -/
structure TrackedBufferPipelineMemoryBarrierRequest (Acc : Type) where
  offset : Int
  size : Nat
  source_access : Acc
  destination_access : Acc

/-- Request that a pipeline barrier is created (traits.rs lines 181-199); the
stage-mask type `Stg` (`PipelineStages`) is an external collaborator kept
abstract. -/
structure TrackedBufferPipelineBarrierRequest (Stg Acc : Type) where
  after_command_num : Nat
  source_stage : Stg
  destination_stages : Stg
  by_region : Bool
  memory_barrier : Option (TrackedBufferPipelineMemoryBarrierRequest Acc)

/-- Submission-time synchronization payload (traits.rs lines 220-225); the
semaphore type `Sem` is an external collaborator kept abstract. -/
structure TrackedBufferSubmitInfos (Stg Acc Sem : Type) where
  pre_semaphore : Option (Sem × Stg)
  post_semaphore : Option Sem
  pre_barrier : Option (TrackedBufferPipelineBarrierRequest Stg Acc)
  post_barrier : Option (TrackedBufferPipelineBarrierRequest Stg Acc)

/-- Observable behavior of a value implementing `TrackedBuffer<S>` (and hence
`Buffer`): the `Buffer` part plus the four `TrackedBuffer` operations.
`&mut States` arguments are modelled by explicit state passing; the
`&mut FnMut() -> Arc<Fence>` fence factory is modelled as a mutable closure
state of abstract type `FG`; `Q` is the abstract queue type. -/
structure TrackedBufferImpl (S Stg Acc Q FG Sem : Type) where
  toBufferVal : BufferVal
  conflicts_buffer : Nat → Nat → Bool → BufferVal → Nat → Nat → Bool → Bool
  transition : S → Nat → Nat → Nat → Bool → Stg → Acc →
    Option (TrackedBufferPipelineBarrierRequest Stg Acc) × S
  finish : S → S → Option (TrackedBufferPipelineBarrierRequest Stg Acc) × S × S
  on_submit : S → Q → FG → TrackedBufferSubmitInfos Stg Acc Sem × FG

/-- The blanket impls `Buffer for &'a B` and `TrackedBuffer<S> for &'a B`
(traits.rs lines 88-98 and 258-287): every method body is
`(**self).method(same arguments)`. -/
def refTracked {S Stg Acc Q FG Sem : Type} (b : TrackedBufferImpl S Stg Acc Q FG Sem) :
    TrackedBufferImpl S Stg Acc Q FG Sem where
  toBufferVal := { inner := b.toBufferVal.inner, size := b.toBufferVal.size }
  conflicts_buffer := fun so ss sw other oo os ow =>
    b.conflicts_buffer so ss sw other oo os ow
  transition := fun s n o sz w st a => b.transition s n o sz w st a
  finish := fun i o => b.finish i o
  on_submit := fun s q f => b.on_submit s q f

/-- The blanket impls `Buffer for Arc<B>` and `TrackedBuffer<S> for Arc<B>`
(traits.rs lines 100-110 and 227-256): every method body is
`(**self).method(same arguments)`. -/
def arcTracked {S Stg Acc Q FG Sem : Type} (b : TrackedBufferImpl S Stg Acc Q FG Sem) :
    TrackedBufferImpl S Stg Acc Q FG Sem where
  toBufferVal := { inner := b.toBufferVal.inner, size := b.toBufferVal.size }
  conflicts_buffer := fun so ss sw other oo os ow =>
    b.conflicts_buffer so ss sw other oo os ow
  transition := fun s n o sz w st a => b.transition s n o sz w st a
  finish := fun i o => b.finish i o
  on_submit := fun s q f => b.on_submit s q f

/-- A half-open index range, modelling `std::ops::Range<usize>` (`start..end`);
the Rust field `end` is named `stop` because `end` is reserved in Lean. -/
structure RustRange where
  start : Nat
  stop : Nat
deriving Repr, DecidableEq

/-- Modelled from the spec: `BufferSlice::slice` lives in `buffer/slice.rs`,
which is not part of the sources; the spec says `slice(range) -> Option<TypedView>`
returns `None` when `range` exceeds `len()`, and out-of-range slicing is an
empty-result indicator, not a failure path. The resulting typed sub-view is
modelled by the accepted range itself. -/
def BufferSlice.slice (len : Nat) (range : RustRange) : Option RustRange :=
  if range.stop ≤ len then some range else none

/-- The `Buffer` trait's `slice()` body (traits.rs lines 62-67): it forwards to
`BufferSlice::slice` on the full typed view, whose length is
`len() = size() / indiv_size()`. -/
def Buffer.slice (size indivSize : Nat) (range : RustRange) : Option RustRange :=
  BufferSlice.slice (Buffer.len size indivSize) range

/-- A concrete raw buffer used in counterexamples and witnesses. -/
def rawA : UnsafeBuffer := { internal_object := 1, size := 100 }

/-- A concrete capability over `rawA` at offset 0 with (overridden) size 100. -/
def capA : BufferVal := { inner := { buffer := rawA, offset := 0 }, size := 100 }

/-- A second concrete raw buffer, distinct from `rawA`. -/
def rawC : UnsafeBuffer := { internal_object := 2, size := 100 }

/-- Inner information describing a sub-range of `rawC` starting at byte 10. -/
def innerSub : BufferInner := { buffer := rawC, offset := 10 }

/-- A capability over the sub-range `innerSub` whose `size()` is the trait's
default implementation. -/
def capSub : BufferVal := { inner := innerSub, size := Buffer.defaultSize innerSub }

/-- Closed form of the default `conflicts_buffer` body as one boolean
expression, shared by several theorems below. -/
theorem conflicts_buffer_eq (self : BufferVal) (so ss : Nat) (sw : Bool)
    (other : BufferVal) (oo os : Nat) (ow : Bool) :
    conflicts_buffer self so ss sw other oo os ow =
      (decide (self.inner.buffer.internal_object = other.inner.buffer.internal_object)
        && (sw || ow)
        && !(decide (so + self.inner.offset < oo + other.inner.offset)
              && decide (so + self.inner.offset + ss ≤ oo + other.inner.offset))
        && !(decide (oo + other.inner.offset < so + self.inner.offset)
              && decide (oo + other.inner.offset + os ≤ so + self.inner.offset))) := by
  simp only [conflicts_buffer]
  split_ifs with h1 h2 h3 h4 <;> cases sw <;> cases ow <;> simp_all <;> omega

/-- Claim C1, counterexample: the default `conflicts_buffer` is NOT equivalent
to the spec's half-open-interval overlap formula for every pair of offsets and
sizes. With both absolute start offsets equal to 0, a zero-size self range and
a size-5 other range, and a write, the code returns `true` while the spec's
formula says the ranges do not overlap. -/
theorem conflicts_buffer_zero_size_cex :
    conflicts_buffer capA 0 0 true capA 0 5 false = true
    ∧ spec_overlap (0 + capA.inner.offset) 0 (0 + capA.inner.offset) 5 = false := by
  decide

/-- Claim C1 (amended): for two accesses on the same underlying raw resource
with at least one write, `conflicts_buffer` returns true iff the absolute
half-open ranges overlap per the spec's formula OR the two absolute start
offsets are equal; only the equal-start zero-size degenerate case deviates from
pure overlap. -/
theorem conflicts_buffer_iff_overlap_or_eq_start
    (self other : BufferVal) (so ss oo os : Nat) (sw ow : Bool)
    (hres : self.inner.buffer.internal_object = other.inner.buffer.internal_object)
    (hw : sw = true ∨ ow = true) :
    conflicts_buffer self so ss sw other oo os ow =
      (spec_overlap (so + self.inner.offset) ss (oo + other.inner.offset) os
        || decide (so + self.inner.offset = oo + other.inner.offset)) := by
  unfold conflicts_buffer spec_overlap
  rcases hw with hw | hw <;> subst hw <;>
    simp only [hres, ne_eq, not_true_eq_false, if_false, Bool.not_true, Bool.not_false,
      Bool.false_and, Bool.and_false, Bool.false_eq_true, if_false] <;>
    split_ifs <;> simp_all <;> omega

/-- Claim C1 witness: the amended equivalence instantiated at absolute ranges
[0,10) and [5,15) with a write on the same resource. -/
theorem conflicts_buffer_iff_overlap_or_eq_start_witness :
    conflicts_buffer capA 0 10 true capA 5 10 false =
      (spec_overlap (0 + capA.inner.offset) 10 (5 + capA.inner.offset) 10
        || decide (0 + capA.inner.offset = 5 + capA.inner.offset)) :=
  conflicts_buffer_iff_overlap_or_eq_start capA capA 0 10 5 10 true false rfl (Or.inl rfl)

/-- Claim C2: the code ships a universal default `conflict_key` whose body is
`unimplemented!()`, so invoking it on a resource that relies on the default ends
in a runtime not-implemented failure for every input — contradicting the
requirement that `conflict_key` be a compile-time, default-free obligation. -/
theorem conflict_key_default_unimplemented :
    conflict_key_default 0 0 false = Except.error "not implemented" := rfl

/-- Claim C3, counterexample: a capability describing a sub-range of `rawC` at
non-zero offset 10 whose `size()` is the trait's default implementation reports
exactly the underlying raw resource's full size, refuting the claim that for
every capability instance `size()` is the described range's explicitly stored
size and differs from the underlying resource's full size at non-zero offset. -/
theorem default_size_subrange_cex :
    capSub.inner.offset ≠ 0 ∧ capSub.size = rawC.size := by
  decide

/-- Claim C3 (amended): the `Buffer` trait's default `size()` returns the full
byte size of the underlying raw resource, regardless of the capability's
offset; a capability describing a proper sub-range must therefore override
`size()` and store the range size itself — the trait does not do it for them. -/
theorem default_size_eq_underlying (inner : BufferInner) :
    Buffer.defaultSize inner = inner.buffer.size := rfl

/-- Claim C4, counterexample: in a non-debug build, a call violating the
precondition `self_size <= self.size()` (size 200 against a capability of size
100) is not rejected: the predicate is computed and returned as an ordinary
result. -/
theorem conflicts_checked_release_cex :
    conflicts_buffer_checked false capA 0 200 true capA 0 200 true = Except.ok true
    ∧ ¬ (200 ≤ capA.size) :=
  ⟨rfl, by decide⟩

/-- Claim C4 (amended): the precondition `self_size <= self.size()` is enforced
only by `debug_assert!`: a violating call fails in a debug build, while in a
non-debug build it is not rejected and the predicate's value is returned. -/
theorem conflicts_checked_debug_assert_only
    (self other : BufferVal) (so ss oo os : Nat) (sw ow : Bool)
    (hviol : self.size < ss) :
    conflicts_buffer_checked true self so ss sw other oo os ow =
      Except.error "assertion failed: self_size <= self.size()"
    ∧ conflicts_buffer_checked false self so ss sw other oo os ow =
      Except.ok (conflicts_buffer self so ss sw other oo os ow) := by
  unfold conflicts_buffer_checked
  constructor
  · rw [if_pos ⟨rfl, hviol⟩]
  · rw [if_neg]
    simp

/-- Claim C4 witness: the amended statement instantiated at a violating call
(size 200 against a capability of size 100). -/
theorem conflicts_checked_debug_assert_only_witness :
    conflicts_buffer_checked true capA 0 200 true capA 0 200 true =
      Except.error "assertion failed: self_size <= self.size()"
    ∧ conflicts_buffer_checked false capA 0 200 true capA 0 200 true =
      Except.ok (conflicts_buffer capA 0 200 true capA 0 200 true) :=
  conflicts_checked_debug_assert_only capA capA 0 200 0 200 true true (by decide)

/-- Claim C5: whenever the two capabilities denote different underlying raw
resources (distinct `internal_object` handles), `conflicts_buffer` returns
false, regardless of offsets, sizes and read/write flags. -/
theorem conflicts_buffer_different_resources
    (self other : BufferVal) (so ss oo os : Nat) (sw ow : Bool)
    (hres : self.inner.buffer.internal_object ≠ other.inner.buffer.internal_object) :
    conflicts_buffer self so ss sw other oo os ow = false := by
  unfold conflicts_buffer
  rw [if_pos hres]

/-- Claim C5 witness: accesses on the distinct resources `rawA` and `rawC`
never conflict. -/
theorem conflicts_buffer_different_resources_witness :
    conflicts_buffer capA 3 5 true capSub 4 6 true = false :=
  conflicts_buffer_different_resources capA capSub 3 5 4 6 true true (by decide)

/-- Claim C6: two accesses on the same resource, at least one a write, whose
absolute ranges are [0,10) and [10,20) (touching, one ending exactly where the
other starts) do not conflict. -/
theorem conflicts_buffer_touching_ranges
    (self other : BufferVal) (so ss oo os : Nat) (sw ow : Bool)
    (hres : self.inner.buffer.internal_object = other.inner.buffer.internal_object)
    (hw : sw = true ∨ ow = true)
    (h1 : so + self.inner.offset = 0) (h2 : ss = 10)
    (h3 : oo + other.inner.offset = 10) (h4 : os = 10) :
    conflicts_buffer self so ss sw other oo os ow = false := by
  have := hres
  have := hw
  have := h4
  rw [conflicts_buffer_eq, h1, h2, h3]
  simp

/-- Claim C6 witness: the touching ranges [0,10) and [10,20) on `rawA`, with a
write on the first access, do not conflict. -/
theorem conflicts_buffer_touching_ranges_witness :
    conflicts_buffer capA 0 10 true capA 10 10 false = false :=
  conflicts_buffer_touching_ranges capA capA 0 10 10 10 true false rfl (Or.inl rfl)
    (by decide) rfl (by decide) rfl

/-- Claim C7: when neither access is a write, `conflicts_buffer` returns false
for any capabilities, offsets and sizes. -/
theorem conflicts_buffer_read_read
    (self other : BufferVal) (so ss oo os : Nat) :
    conflicts_buffer self so ss false other oo os false = false := by
  unfold conflicts_buffer
  split <;> simp

/-- Claim C8: the blanket implementations for references and shared handles
(`&B` and `Arc<B>`) forward every `Buffer` and `TrackedBuffer` operation —
`inner`, `size`, `conflicts_buffer`, `transition`, `finish`, `on_submit` — to
the wrapped value with the same arguments, returning exactly its result,
including the unchanged output states of the state-passing operations. -/
theorem wrapper_forwarding {S Stg Acc Q FG Sem : Type}
    (b : TrackedBufferImpl S Stg Acc Q FG Sem)
    (so ss oo os n sz : Nat) (sw ow w : Bool) (other : BufferVal)
    (s i o : S) (stg : Stg) (acc : Acc) (q : Q) (fg : FG) :
    (refTracked b).toBufferVal.inner = b.toBufferVal.inner
    ∧ (refTracked b).toBufferVal.size = b.toBufferVal.size
    ∧ (refTracked b).conflicts_buffer so ss sw other oo os ow
        = b.conflicts_buffer so ss sw other oo os ow
    ∧ (refTracked b).transition s n so sz w stg acc = b.transition s n so sz w stg acc
    ∧ (refTracked b).finish i o = b.finish i o
    ∧ (refTracked b).on_submit s q fg = b.on_submit s q fg
    ∧ (arcTracked b).toBufferVal.inner = b.toBufferVal.inner
    ∧ (arcTracked b).toBufferVal.size = b.toBufferVal.size
    ∧ (arcTracked b).conflicts_buffer so ss sw other oo os ow
        = b.conflicts_buffer so ss sw other oo os ow
    ∧ (arcTracked b).transition s n so sz w stg acc = b.transition s n so sz w stg acc
    ∧ (arcTracked b).finish i o = b.finish i o
    ∧ (arcTracked b).on_submit s q fg = b.on_submit s q fg :=
  ⟨rfl, rfl, rfl, rfl, rfl, rfl, rfl, rfl, rfl, rfl, rfl, rfl⟩

/-- Claim C9 (the sliced view's range check is modelled from the spec since
`buffer/slice.rs` is not among the sources): `slice(range)` returns `None`
exactly when the range exceeds `len()`, and otherwise returns `Some` sub-view —
an empty-result indicator rather than an error path. -/
theorem buffer_slice_none_iff (size indivSize : Nat) (r : RustRange) :
    (Buffer.slice size indivSize r = none ↔ Buffer.len size indivSize < r.stop)
    ∧ (Buffer.slice size indivSize r = some r ↔ r.stop ≤ Buffer.len size indivSize) := by
  unfold Buffer.slice BufferSlice.slice
  split_ifs with h <;> simp <;> omega

/-- Claim C10: the default `conflicts_buffer` is symmetric — swapping the self
access and the other access (capability, offset, size and write flag together)
yields the same boolean result. -/
theorem conflicts_buffer_symm
    (a b : BufferVal) (so ss oo os : Nat) (sw ow : Bool) :
    conflicts_buffer a so ss sw b oo os ow = conflicts_buffer b oo os ow a so ss sw := by
  rw [conflicts_buffer_eq, conflicts_buffer_eq]
  have hobj : decide (a.inner.buffer.internal_object = b.inner.buffer.internal_object)
      = decide (b.inner.buffer.internal_object = a.inner.buffer.internal_object) := by
    simp [eq_comm]
  rw [hobj, Bool.or_comm]
  cases decide (so + a.inner.offset < oo + b.inner.offset)
      && decide (so + a.inner.offset + ss ≤ oo + b.inner.offset) <;>
    cases decide (oo + b.inner.offset < so + a.inner.offset)
      && decide (oo + b.inner.offset + os ≤ so + a.inner.offset) <;>
    simp

end Vulkano
